import Mathlib

/-!
Shallow embedding of the negotiation core of the yagna market
(`src/core/market/src/negotiation/common.rs`, the decentralized events DAO
`src/core/market/decentralized/src/db/dao/events.rs`, and the matcher pinned
by `src/tests/matching.rs`), together with theorems settling the spec claims.

Machine integers (node ids, subscription ids, timestamps) are modelled as
`Nat`; instants and second counts as `Int` (no overflow is relevant to any
claim). Fallible Rust functions returning `Result` are modelled as `Except`;
stateful database operations take and return an explicit store value.
-/

/-- `Owner` tag of ids and roles (`Owner::Provider` / `Owner::Requestor`). -/
inductive Owner where
  | provider
  | requestor
deriving DecidableEq, Repr

/-- `Owner::swap` — the counterpart role. -/
def Owner.swap : Owner → Owner
  | .provider => .requestor
  | .requestor => .provider

/-- Issuer tag of a proposal body (`Issuer::Us` / `Issuer::Them`). -/
inductive Issuer where
  | us
  | them
deriving DecidableEq, Repr

/-- Node identity (`NodeId`), abstracted to a natural number. -/
abbrev NodeId : Type := Nat

/-- Subscription identity (`SubscriptionId`), abstracted to a natural number. -/
abbrev SubscriptionId : Type := Nat

/-- `ProposalId`: an opaque id tagged with the issuing `Owner`. -/
structure ProposalId where
  n : Nat
  owner : Owner
deriving DecidableEq, Repr

/-- Proposal lifecycle states (`ProposalState`). -/
inductive ProposalState where
  | initial
  | draft
  | rejected
  | accepted
  | expired
deriving DecidableEq, Repr

/-- Terminal proposal states: `Rejected`, `Accepted`, `Expired`. -/
def ProposalState.isTerminal : ProposalState → Bool
  | .rejected => true
  | .accepted => true
  | .expired => true
  | _ => false

/-- A property set: a flat association list from names to (string) values,
as owned by each Demand/Offer snapshot. -/
abbrev PropertySet : Type := List (String × String)

/-- Reference type inside a constraint: plain value reference or
aspect-qualified reference (`PropertyRefType`). -/
inductive PropertyRefType where
  | any
  | aspect (name : String)
deriving DecidableEq, Repr

/-- `PropertyRef::Value(name, ref_type)`. -/
inductive PropertyRef where
  | value (name : String) (t : PropertyRefType)
deriving DecidableEq, Repr

/-- Constraint expression tree (`Expression`), restricted to the variants the
claims exercise: `Equals`, `Present` (wildcard `=*`) and `Empty`. -/
inductive Expression where
  | equals (r : PropertyRef) (v : String)
  | present (r : PropertyRef)
  | empty
deriving DecidableEq, Repr

/-- Body of one proposal (`ProposalBody`): id, property set, constraints,
issuer tag, link to the previous proposal in the chain, state. -/
structure ProposalBody where
  id : ProposalId
  properties : PropertySet
  constraints : Expression
  issuer : Issuer
  prev_proposal_id : Option ProposalId
  state : ProposalState
deriving DecidableEq, Repr

/-- Negotiation record attached to a proposal (`Negotiation`). -/
structure Negotiation where
  subscription_id : SubscriptionId
  offer_id : Nat
  demand_id : Nat
  provider_id : NodeId
  requestor_id : NodeId
deriving DecidableEq, Repr

/-- A proposal: body plus negotiation record (`Proposal`). -/
structure Proposal where
  body : ProposalBody
  negotiation : Negotiation
deriving DecidableEq, Repr

/-- `NewProposal`: the client-supplied body of a counter-proposal. -/
structure NewProposal where
  properties : PropertySet
  constraints : Expression
deriving DecidableEq, Repr

/-- Agreement identity (`AgreementId`), owner-tagged like `ProposalId`. -/
structure AgreementId where
  n : Nat
  owner : Owner
deriving DecidableEq, Repr

/-- Agreement states relevant to the termination claims. -/
inductive AgreementState where
  | pending
  | approved
  | expired
  | terminated
deriving DecidableEq, Repr

/-- An agreement (`Agreement`): parties, state, optional session id and
termination reason. -/
structure Agreement where
  id : AgreementId
  provider_id : NodeId
  requestor_id : NodeId
  state : AgreementState
  session_id : Option String
  terminated_reason : Option String
deriving DecidableEq, Repr

/-- The persistent store visible to `CommonBroker`: proposals keyed by id,
the subscription store's live offers and demands (by id), and agreements. -/
structure Store where
  proposals : List Proposal
  offers : List Nat
  demands : List Nat
  agreements : List Agreement
deriving DecidableEq, Repr

/-- `ProposalDao::get_proposal` — find a stored proposal by its id. -/
def proposalDaoGet (st : Store) (id : ProposalId) : Option Proposal :=
  st.proposals.find? (fun p => p.body.id = id)

/-- `GetProposalError`: only `NotFound(id, subscription_id)` is reachable in
the model (the `Internal` variant wraps database failures, not modelled). -/
inductive GetProposalError where
  | notFound (id : ProposalId) (subs : Option SubscriptionId)
deriving DecidableEq, Repr

/-- Proposal validation errors (`ProposalValidationError`), with the
subscription-store lookup failures folded in as `noOffer`/`noDemand`. -/
inductive ProposalValidationError where
  | unauthorized (id : ProposalId) (caller : NodeId)
  | ownProposal (id : ProposalId)
  | noOffer (id : Nat)
  | noDemand (id : Nat)
deriving DecidableEq, Repr

/-- `MatchValidationError`: the Matching Engine rejected the pair. -/
inductive MatchValidationError where
  | notMatching (new : ProposalId) (prev : ProposalId)
deriving DecidableEq, Repr

/-- `SaveProposalError`: the previous proposal was already countered. -/
inductive SaveProposalError where
  | alreadyCountered (id : ProposalId)
deriving DecidableEq, Repr

/-- Transition error produced by the proposal/agreement state machine. -/
inductive TransitionError where
  | invalidTransition (src dst : AgreementState)
deriving DecidableEq, Repr

/-- `ProposalError`, the error type of `CommonBroker::counter_proposal`. -/
inductive ProposalError where
  | get (e : GetProposalError)
  | validation (e : ProposalValidationError)
  | matchErr (e : MatchValidationError)
  | save (e : SaveProposalError)
deriving DecidableEq, Repr

/-- `RejectProposalError`, the error type of `CommonBroker::reject_proposal`. -/
inductive RejectProposalError where
  | get (e : GetProposalError)
  | validation (e : ProposalValidationError)
  | invalidTransition (id : ProposalId) (state : ProposalState)
deriving DecidableEq, Repr

/-- `CommonBroker::get_proposal` (common.rs:284-314): fetch by id; when a
subscription id is supplied and the stored proposal's subscription differs,
the proposal is filtered out and the call returns the same
`NotFound(id, subs_id)` error as when no proposal with that id exists. -/
def get_proposal (st : Store) (subs_id : Option SubscriptionId)
    (id : ProposalId) : Except GetProposalError Proposal :=
  match (proposalDaoGet st id).filter (fun proposal =>
      match subs_id with
      | none => true
      | some subscription_id =>
        proposal.negotiation.subscription_id = subscription_id) with
  | some p => .ok p
  | none => .error (.notFound id subs_id)

/-- `CommonBroker::validate_proposal` (common.rs:587-618). The first guard
(common.rs:593-598) constructs `ProposalValidationError::Unauthorized` but
never returns it — the expression statement drops the value — so the
caller-id check has no effect and is embedded as a no-op. The self-reaction
guard (common.rs:600-605) does raise `OwnProposal`. The final subscription
store lookups (`get_offer`, and `get_demand` on the Requestor side) fail when
the offer/demand is absent. -/
def validate_proposal (st : Store) (proposal : Proposal) (_caller_id : NodeId)
    (caller_role : Owner) : Except ProposalValidationError Unit :=
  -- common.rs:593-598: `ProposalValidationError::Unauthorized(..)` is built
  -- here in the source and immediately discarded, so nothing is checked.
  if proposal.body.issuer = Issuer.us ∧ proposal.body.id.owner = caller_role
  then .error (.ownProposal proposal.body.id)
  else if ¬ st.offers.contains proposal.negotiation.offer_id then
    .error (.noOffer proposal.negotiation.offer_id)
  else if proposal.body.id.owner = Owner.requestor ∧
      ¬ st.demands.contains proposal.negotiation.demand_id then
    .error (.noDemand proposal.negotiation.demand_id)
  else .ok ()

/-- Look up a plain or aspect-qualified reference in a property set. Aspects
are not modelled (no claim exercises them), so aspect references resolve to
`none`. -/
def resolveRef (props : PropertySet) : PropertyRef → Option String
  | .value name .any =>
    (props.find? (fun kv => kv.fst = name)).map (fun kv => kv.snd)
  | .value _ (.aspect _) => none

/-- Result of evaluating one expression against one property set
(`MatchResult` of the resolver, per side): `True`, `False(refs, vals)`
carrying unresolved refs, or `Undefined(refs, cause)` carrying the
offending references and sub-expression. -/
inductive EvalResult where
  | t
  | f (refs : List PropertyRef) (vals : List String)
  | undef (refs : List PropertyRef) (cause : Expression)
deriving DecidableEq, Repr

/-- Modelled from the spec: the resolver's `evaluate` (the `ya_market_resolver`
crate is not under src/). Per spec §4.1 `Equals(ref,val)` on an absent
property yields `Undefined` carrying the offending (refs, sub-expression)
pair; `Present` on an absent property yields `False([ref], [])`; `Empty` is
`True`. The `False` payload of a present-but-unequal comparison is pinned by
`src/tests/matching.rs` (`match_weak_simple_no_match` expects empty ref and
value lists at match level), so it carries no refs. -/
def evaluate (e : Expression) (props : PropertySet) : EvalResult :=
  match e with
  | .equals r v =>
    match resolveRef props r with
    | none => .undef [r] (.equals r v)
    | some actual => if actual = v then .t else .f [] []
  | .present r =>
    match resolveRef props r with
    | none => .f [r] []
    | some _ => .t
  | .empty => .t

/-- Match-level result (`MatchResult` as used by `match_weak` in
`src/tests/matching.rs`): `Undefined` carries one (refs, sub-expression)
pair per side. -/
inductive MatchResult where
  | yes
  | no (refs : List PropertyRef) (vals : List String)
  | undefined (demandCause : List PropertyRef × Expression)
      (offerCause : List PropertyRef × Expression)
deriving DecidableEq, Repr

/-- The (refs, cause) pair a side contributes to an `Undefined` match result;
a side that is not undefined contributes `([], Empty)`, as pinned by
`match_weak_simple_undefined` in `src/tests/matching.rs`. -/
def undefPair : EvalResult → List PropertyRef × Expression
  | .undef refs cause => (refs, cause)
  | _ => ([], .empty)

/-- Unresolved references a side contributes to a `False` match result. -/
def falseRefs : EvalResult → List PropertyRef
  | .f refs _ => refs
  | _ => []

/-- Unbound values a side contributes to a `False` match result. -/
def falseVals : EvalResult → List String
  | .f _ vals => vals
  | _ => []

/-- Modelled from the spec: `match_weak`/`match_demand_offer` (the resolver
crate is not under src/). Evaluates the demand constraints against the offer
properties and vice versa; `Undefined` on either side dominates `False`
(pinned by `match_weak_simple_undefined`, where a `False` offer side still
yields an `Undefined` overall result); both sides `True` gives a match. -/
def match_weak (demandProps : PropertySet) (demandCons : Expression)
    (offerProps : PropertySet) (offerCons : Expression) : MatchResult :=
  let dr := evaluate demandCons offerProps
  let orr := evaluate offerCons demandProps
  match dr, orr with
  | .t, .t => .yes
  | .undef refs cause, other => .undefined (refs, cause) (undefPair other)
  | other, .undef refs cause => .undefined (undefPair other) (refs, cause)
  | d, o => .no (falseRefs d ++ falseRefs o) (falseVals d ++ falseVals o)

/-- `validate_match` (common.rs:636-659): runs `match_demand_offer` between
the new proposal and the previous one; anything but `Match::Yes` is a
`NotMatching` error. -/
def validate_match (new_proposal prev_proposal : Proposal) :
    Except MatchValidationError Unit :=
  match match_weak new_proposal.body.properties new_proposal.body.constraints
      prev_proposal.body.properties prev_proposal.body.constraints with
  | .yes => .ok ()
  | _ => .error (.notMatching new_proposal.body.id prev_proposal.body.id)

/-- Modelled from the spec: `Proposal::from_client` (the db model is not
under src/). Builds the countering Draft proposal from the client body:
fresh id in the same chain, issuer `Us`, `prev_proposal_id` pointing at the
previous proposal, state `Draft`, negotiation record carried over. -/
def fromClient (prev : Proposal) (np : NewProposal) : Proposal :=
  { body :=
      { id := ⟨prev.body.id.n + 1, prev.body.id.owner⟩
        properties := np.properties
        constraints := np.constraints
        issuer := .us
        prev_proposal_id := some prev.body.id
        state := .draft }
    negotiation := prev.negotiation }

/-- Modelled from the spec: `ProposalDao::save_proposal` (§6:
`save_proposal(Proposal) -> Result<(), AlreadyCountered | Other>`; the DAO is
not under src/). Fails with `AlreadyCountered` when a stored proposal already
counters the same previous proposal, otherwise appends. -/
def save_proposal (st : Store) (p : Proposal) :
    Except SaveProposalError Store :=
  match p.body.prev_proposal_id with
  | some prev_id =>
    if st.proposals.any (fun q => q.body.prev_proposal_id = some prev_id)
    then .error (.alreadyCountered prev_id)
    else .ok { st with proposals := p :: st.proposals }
  | none => .ok { st with proposals := p :: st.proposals }

/-- Modelled from the spec: `ProposalDao::change_proposal_state` (the DAO is
not under src/). Per §4.3 and §8, terminal proposal states (`Rejected`,
`Accepted`, `Expired`) are absorbing: changing the state of a proposal
already in a terminal state is an `InvalidTransition` error; otherwise the
stored proposal's state is updated. -/
def change_proposal_state (st : Store) (id : ProposalId)
    (new_state : ProposalState) :
    Except (ProposalId × ProposalState) Store :=
  match proposalDaoGet st id with
  | none => .error (id, .initial)
  | some p =>
    if p.body.state.isTerminal then .error (id, p.body.state)
    else .ok { st with
      proposals := st.proposals.map (fun q =>
        if q.body.id = id then
          { q with body := { q.body with state := new_state } }
        else q) }

/-- `CommonBroker::counter_proposal` (common.rs:97-128): fetch the previous
proposal under the supplied subscription, validate, derive the counter body,
re-run the Matching Engine, persist. Returns the new proposal together with
the is-first flag and the resulting store. -/
def counter_proposal (st : Store) (subscription_id : SubscriptionId)
    (prev_proposal_id : ProposalId) (proposal : NewProposal)
    (caller_id : NodeId) (caller_role : Owner) :
    Except ProposalError (Proposal × Bool) × Store :=
  match get_proposal st (some subscription_id) prev_proposal_id with
  | .error e => (.error (.get e), st)
  | .ok prev_proposal =>
    match validate_proposal st prev_proposal caller_id caller_role with
    | .error e => (.error (.validation e), st)
    | .ok _ =>
      let is_first := prev_proposal.body.prev_proposal_id.isNone
      let new_proposal := fromClient prev_proposal proposal
      match validate_match new_proposal prev_proposal with
      | .error e => (.error (.matchErr e), st)
      | .ok _ =>
        match save_proposal st new_proposal with
        | .error e => (.error (.save e), st)
        | .ok st' => (.ok (new_proposal, is_first), st')

/-- `CommonBroker::reject_proposal` (common.rs:130-166): fetch (optionally
scoped to a subscription), validate, then move the proposal to `Rejected`
through the state-transition function. -/
def reject_proposal (st : Store) (subs_id : Option SubscriptionId)
    (proposal_id : ProposalId) (caller_id : NodeId) (caller_role : Owner) :
    Except RejectProposalError Proposal × Store :=
  match get_proposal st subs_id proposal_id with
  | .error e => (.error (.get e), st)
  | .ok proposal =>
    match validate_proposal st proposal caller_id caller_role with
    | .error e => (.error (.validation e), st)
    | .ok _ =>
      match change_proposal_state st proposal_id ProposalState.rejected with
      | .error st_err => (.error (.invalidTransition st_err.1 st_err.2), st)
      | .ok st' => (.ok proposal, st')

/-- `AgreementError`, the error type of `CommonBroker::terminate_agreement`. -/
inductive AgreementError where
  | notFound (id : AgreementId)
  | updateState (id : AgreementId) (e : TransitionError)
deriving DecidableEq, Repr

/-- Remote error taxonomy for agreement termination (`RemoteAgreementError`):
restricted, per the protocol, to `NotFound` and `InternalError`. -/
inductive RemoteAgreementError where
  | notFound (id : AgreementId)
  | internalError (id : AgreementId)
deriving DecidableEq, Repr

/-- Modelled from the spec: `check_transition` for agreements
(`crate::db::model` is not under src/). Terminal states (`Terminated`,
`Expired`) are absorbing (§3 invariants); any non-terminal state may move to
`Terminated` (§4.4). -/
def check_transition (src dst : AgreementState) :
    Except TransitionError Unit :=
  match src with
  | .terminated => .error (.invalidTransition src dst)
  | .expired => .error (.invalidTransition src dst)
  | _ => if dst = AgreementState.terminated then .ok ()
         else .error (.invalidTransition src dst)

/-- `validate_transition` (common.rs:661-667): `check_transition` with the
error wrapped as `AgreementError::UpdateState`. -/
def validate_transition (agreement : Agreement) (state : AgreementState) :
    Except AgreementError Unit :=
  match check_transition agreement.state state with
  | .ok _ => .ok ()
  | .error e => .error (.updateState agreement.id e)

/-- Modelled from the spec: `AgreementDao::select_by_node` (the DAO is not
under src/). Fetches an agreement by id filtered by the caller identity —
authorization is built into the fetch (§4.4), an agreement that exists but
does not belong to the caller is simply not found. Ids are compared on their
numeric part (common.rs:351 notes the incoming id's owner tag is not
trusted). -/
def select_by_node (st : Store) (id : AgreementId) (identity : NodeId) :
    Option Agreement :=
  st.agreements.find? (fun a =>
    a.id.n = id.n ∧ (a.provider_id = identity ∨ a.requestor_id = identity))

/-- Modelled from the spec: `AgreementDao::select` by id alone. -/
def agreementSelect (st : Store) (id : AgreementId) : Option Agreement :=
  st.agreements.find? (fun a => a.id.n = id.n)

/-- Modelled from the spec: `AgreementDao::terminate` (the DAO is not under
src/). Transactional check-then-set (§5): re-checks the transition to
`Terminated` inside the transaction, then stores the terminal state with the
stringified reason. -/
def agreementDaoTerminate (st : Store) (id : AgreementId)
    (reason : Option String) : Except TransitionError Store :=
  match agreementSelect st id with
  | none => .error (.invalidTransition .pending .terminated)
  | some a =>
    match check_transition a.state .terminated with
    | .error e => .error e
    | .ok _ => .ok { st with
        agreements := st.agreements.map (fun b =>
          if b.id.n = id.n then
            { b with state := .terminated, terminated_reason := reason }
          else b) }

/-- `CommonBroker::terminate_agreement` (common.rs:331-373), the local entry
point: fetch filtered by caller identity (`NotFound` otherwise), validate
the transition before any side effect, propagate to the remote peer
(propagation is modelled as always delivered), persist, notify. -/
def terminate_agreement (st : Store) (identity : NodeId)
    (agreement_id : AgreementId) (reason : Option String) :
    Except AgreementError Unit × Store :=
  match select_by_node st agreement_id identity with
  | none => (.error (.notFound agreement_id), st)
  | some agreement =>
    match validate_transition agreement .terminated with
    | .error e => (.error e, st)
    | .ok _ =>
      match agreementDaoTerminate st agreement.id reason with
      | .error e => (.error (.updateState agreement.id e), st)
      | .ok st' => (.ok (), st')

/-- `CommonBroker::on_agreement_terminated_inner` (common.rs:394-441), the
remote entry point: fetch by id alone, authorize the caller against the
role's party (mismatch is `NotFound` — information hiding), then terminate;
any DAO failure is mapped to the generic `InternalError` remote variant
(common.rs:420-429). -/
def on_agreement_terminated_inner (st : Store) (agreement_id : AgreementId)
    (reason : Option String) (caller_id : NodeId) (caller_role : Owner) :
    Except RemoteAgreementError Unit × Store :=
  match agreementSelect st agreement_id with
  | none => (.error (.notFound agreement_id), st)
  | some agreement =>
    let auth_id := match caller_role with
      | Owner.provider => agreement.provider_id
      | Owner.requestor => agreement.requestor_id
    if auth_id ≠ caller_id then (.error (.notFound agreement_id), st)
    else
      match agreementDaoTerminate st agreement_id reason with
      | .error _ => (.error (.internalError agreement_id), st)
      | .ok st' => (.ok (), st')

/-- `TakeEventsError` as used by `crate::db::dao` in
`src/core/market/src/negotiation/common.rs` (variant names per the use at
common.rs:210). -/
inductive TakeEventsError where
  | notFound (id : SubscriptionId)
  | expired (id : SubscriptionId)
deriving DecidableEq, Repr

/-- `QueryEventsError`, the error type of `CommonBroker::query_events`. -/
inductive QueryEventsError where
  | invalidMaxEvents (requested ceiling : Int)
  | internalClosed
  | takeError (e : TakeEventsError)
deriving DecidableEq, Repr

/-- `AgreementEventsError`, the error type of `query_agreement_events`;
`internalLogic` is the "Code logic error" branch for an `Unsubscribed` wake
(common.rs:271-273). -/
inductive AgreementEventsError where
  | invalidMaxEvents (requested ceiling : Int)
  | internalClosed
  | internalLogic
deriving DecidableEq, Repr

/-- A persisted market event row (`MarketEvent` of the decentralized schema):
global primary key `id`, owning subscription, timestamp. -/
structure MEvent where
  id : Nat
  subscription_id : SubscriptionId
  timestamp : Nat
deriving DecidableEq, Repr

/-- Events configuration (`config.events`): default and ceiling for
`max_events`. -/
structure EventsConfig where
  max_events_default : Int
  max_events_max : Int
deriving DecidableEq, Repr

/-- Result of one `Listener::wait_for_event_with_timeout` call
(`NotifierError` on failure, a wake on success). -/
inductive WaitResult where
  | woken
  | timeout
  | channelClosed
  | unsubscribed (id : SubscriptionId)
deriving DecidableEq, Repr

instance {ε α : Type} [DecidableEq ε] [DecidableEq α] :
    DecidableEq (Except ε α) := fun a b =>
  match a, b with
  | .error e, .error f =>
    if h : e = f then isTrue (by rw [h])
    else isFalse (by intro hc; cases hc; exact h rfl)
  | .error _, .ok _ => isFalse (by intro hc; cases hc)
  | .ok _, .error _ => isFalse (by intro hc; cases hc)
  | .ok x, .ok y =>
    if h : x = y then isTrue (by rw [h])
    else isFalse (by intro hc; cases hc; exact h rfl)

/-- One iteration of the long-poll loop, as observed by the embedding: the
instant `now` at which the loop re-checks the deadline, what the store drain
returns, and how the notifier wait ends if it is reached. -/
structure Round where
  now : Int
  take : Except TakeEventsError (List MEvent)
  wait : WaitResult
deriving DecidableEq, Repr

/-- Observable effects of a query call, in order: listener registration and
store drains. -/
inductive Effect where
  | listen
  | takeEvents
deriving DecidableEq, Repr

/-- Outcome of a query call: a result, a panic (an unguarded partial
operation was reached), or exhaustion of the supplied rounds. -/
inductive QOutcome (ε : Type) where
  | ok (events : List MEvent)
  | err (e : ε)
  | fuelOut
  | panicked
deriving DecidableEq, Repr

/-- `Duration::from_secs_f32` panics on a negative argument; modelled as a
checked conversion to a non-negative duration. -/
def durationFromSecs (secs : Int) : Option Int :=
  if secs < 0 then none else some secs

/-- `stop_time - Instant::now()` panics when the deadline already passed;
modelled as a checked subtraction. -/
def instantSub (stop_time now : Int) : Option Int :=
  if stop_time < now then none else some (stop_time - now)

/-- The long-poll loop of `CommonBroker::query_events` (common.rs:187-216):
drain the store; non-empty result returns; otherwise return empty success if
the deadline passed (the comparison precedes the instant subtraction, which
would panic on a passed deadline); otherwise wait — `Timeout` is an empty
success, `ChannelClosed` an internal error, `Unsubscribed` becomes
`TakeEventsError::NotFound` (common.rs:204-211), and a wake loops. -/
def queryEventsLoop (stop_time : Int) :
    List Round → QOutcome QueryEventsError × List Effect
  | [] => (.fuelOut, [])
  | r :: rest =>
    match r.take with
    | .error e => (.err (.takeError e), [.takeEvents])
    | .ok events =>
      if events.length > 0 then (.ok events, [.takeEvents])
      else if stop_time < r.now then (.ok [], [.takeEvents])
      else
        match instantSub stop_time r.now with
        | none => (.panicked, [.takeEvents])
        | some _ =>
          match r.wait with
          | .timeout => (.ok [], [.takeEvents])
          | .channelClosed => (.err .internalClosed, [.takeEvents])
          | .unsubscribed id =>
            (.err (.takeError (.notFound id)), [.takeEvents])
          | .woken =>
            let rec_result := queryEventsLoop stop_time rest
            (rec_result.1, .takeEvents :: rec_result.2)

/-- `CommonBroker::query_events` (common.rs:168-217): clamp the timeout to at
least zero (`Duration::from_secs_f32` would panic on a negative value),
compute the deadline, resolve and validate `max_events` against the
configured ceiling before registering any listener or touching the store,
then long-poll. `now0` is the instant at entry; `rounds` supplies the
store/notifier behaviour of each loop iteration. -/
def query_events (config : EventsConfig) (timeout : Int)
    (max_events : Option Int) (now0 : Int) (rounds : List Round) :
    QOutcome QueryEventsError × List Effect :=
  match durationFromSecs (max timeout 0) with
  | none => (.panicked, [])
  | some t =>
    let stop_time := now0 + t
    let me := max_events.getD config.max_events_default
    if me ≤ 0 ∨ me > config.max_events_max then
      (.err (.invalidMaxEvents me config.max_events_max), [])
    else
      let body := queryEventsLoop stop_time rounds
      (body.1, .listen :: body.2)

/-- The long-poll loop of `query_agreement_events` (common.rs:239-281): same
structure as `queryEventsLoop`, but any store failure is an internal error
and an `Unsubscribed` wake is the "Code logic error" internal branch
(common.rs:266-274). -/
def queryAgreementEventsLoop (stop_time : Int) :
    List Round → QOutcome AgreementEventsError × List Effect
  | [] => (.fuelOut, [])
  | r :: rest =>
    match r.take with
    | .error _ => (.err .internalClosed, [.takeEvents])
    | .ok events =>
      if events.length > 0 then (.ok events, [.takeEvents])
      else if stop_time < r.now then (.ok [], [.takeEvents])
      else
        match instantSub stop_time r.now with
        | none => (.panicked, [.takeEvents])
        | some _ =>
          match r.wait with
          | .timeout => (.ok [], [.takeEvents])
          | .channelClosed => (.err .internalClosed, [.takeEvents])
          | .unsubscribed _ => (.err .internalLogic, [.takeEvents])
          | .woken =>
            let rec_result := queryAgreementEventsLoop stop_time rest
            (rec_result.1, .takeEvents :: rec_result.2)

/-- `CommonBroker::query_agreement_events` (common.rs:219-282): identical
prologue to `query_events` — timeout clamp, deadline, `max_events`
validation before the listener registration and the first store read. -/
def query_agreement_events (config : EventsConfig) (timeout : Int)
    (max_events : Option Int) (now0 : Int) (rounds : List Round) :
    QOutcome AgreementEventsError × List Effect :=
  match durationFromSecs (max timeout 0) with
  | none => (.panicked, [])
  | some t =>
    let stop_time := now0 + t
    let me := max_events.getD config.max_events_default
    if me ≤ 0 ∨ me > config.max_events_max then
      (.err (.invalidMaxEvents me config.max_events_max), [])
    else
      let body := queryAgreementEventsLoop stop_time rounds
      (body.1, .listen :: body.2)

/-- Liveness state of a demand/offer subscription (`DemandState` /
`OfferState` collapsed to the three cases `validate_subscription`
distinguishes). -/
inductive SubState where
  | active
  | notFound
  | expired
deriving DecidableEq, Repr

/-- `TakeEventsError` of the decentralized events DAO
(`src/core/market/decentralized/src/db/dao/events.rs:15-23`). -/
inductive DaoTakeEventsError where
  | subscriptionNotFound (id : SubscriptionId)
  | subscriptionExpired (id : SubscriptionId)
deriving DecidableEq, Repr

/-- The events database: `market_event` rows plus the liveness state of each
demand/demand and offer subscription (the `demand_status`/`query_state`
lookups of events.rs:86-113 are not under src/; a subscription absent from
the table is `NotFound`). -/
structure EventsStore where
  rows : List MEvent
  demand_states : List (SubscriptionId × SubState)
  offer_states : List (SubscriptionId × SubState)
deriving DecidableEq, Repr

/-- Look up the state recorded for a subscription; absent means `NotFound`. -/
def subStateOf (l : List (SubscriptionId × SubState))
    (id : SubscriptionId) : SubState :=
  match l.find? (fun kv => kv.fst = id) with
  | some kv => kv.snd
  | none => .notFound

/-- `validate_subscription` (events.rs:86-113): a Requestor owns a demand
subscription, a Provider an offer subscription; `NotFound`/`Expired` states
fail with the corresponding error. -/
def validate_subscription (st : EventsStore) (subscription_id : SubscriptionId)
    (owner : Owner) : Except DaoTakeEventsError Unit :=
  let state := match owner with
    | Owner.requestor => subStateOf st.demand_states subscription_id
    | Owner.provider => subStateOf st.offer_states subscription_id
  match state with
  | .notFound => .error (.subscriptionNotFound subscription_id)
  | .expired => .error (.subscriptionExpired subscription_id)
  | .active => .ok ()

/-- Insert an event into a list sorted by ascending timestamp. -/
def insertByTs (e : MEvent) : List MEvent → List MEvent
  | [] => [e]
  | x :: xs =>
    if e.timestamp ≤ x.timestamp then e :: x :: xs else x :: insertByTs e xs

/-- Sort events by ascending timestamp (`order_by(timestamp.asc())`). -/
def sortByTs : List MEvent → List MEvent
  | [] => []
  | x :: xs => insertByTs x (sortByTs xs)

/-- Decide whether a list of events is in ascending timestamp order. -/
def sortedByTs : List MEvent → Bool
  | [] => true
  | [_] => true
  | x :: y :: rest => (x.timestamp ≤ y.timestamp) && sortedByTs (y :: rest)

/-- SQL `LIMIT n` with SQLite semantics: a negative limit means no limit. -/
def limitRows (n : Int) (l : List MEvent) : List MEvent :=
  if n < 0 then l else l.take n.toNat

/-- `EventsDao::take_events` (events.rs:47-73): inside one transaction,
validate the subscription's liveness, load its events oldest-first limited to
`max_events`, and delete the returned rows by primary key. -/
def take_events (st : EventsStore) (subscription_id : SubscriptionId)
    (max_events : Int) (owner : Owner) :
    Except DaoTakeEventsError (List MEvent) × EventsStore :=
  match validate_subscription st subscription_id owner with
  | .error e => (.error e, st)
  | .ok _ =>
    let events := limitRows max_events
      (sortByTs (st.rows.filter (fun r => r.subscription_id = subscription_id)))
    if events.isEmpty then (.ok events, st)
    else
      let ids := events.map (fun e => e.id)
      (.ok events,
        { st with rows := st.rows.filter (fun r => r.id ∉ ids) })

/-- The event list a DAO call returned (empty on error). -/
def takenOf (r : Except DaoTakeEventsError (List MEvent) × EventsStore) :
    List MEvent :=
  match r.1 with
  | .ok l => l
  | .error _ => []

/-! ## Claim theorems -/

/-- A previous proposal issued by the counterpart (`Issuer::Them`), recorded
under subscription 7 with provider node 1 and requestor node 2. -/
def unauthorizedPrev : Proposal :=
  { body := { id := ⟨0, .provider⟩
              properties := [("d1", "v1")]
              constraints := .empty
              issuer := .them
              prev_proposal_id := none
              state := .draft }
    negotiation := { subscription_id := 7, offer_id := 1, demand_id := 2,
                     provider_id := 1, requestor_id := 2 } }

/-- A store holding `unauthorizedPrev` with its offer and demand live. -/
def unauthorizedStore : Store :=
  { proposals := [unauthorizedPrev], offers := [1], demands := [2],
    agreements := [] }

/-- The counter body an unauthorized caller submits. -/
def unauthorizedNew : NewProposal :=
  { properties := [("o1", "v2")], constraints := .empty }

/-- C1. The claim says a `counter_proposal` call whose `caller_id` is not the
counterpart node recorded in the previous proposal's negotiation fails with
`Unauthorized` and persists nothing. The code does not enforce this: the
guard at common.rs:593-598 constructs `ProposalValidationError::Unauthorized`
and drops it without returning, so at the failing input — caller node 5
countering as Provider a proposal whose negotiation records provider node
1 — the call succeeds and the counter-proposal is saved to the store. -/
theorem counter_proposal_unauthorized_not_enforced :
    unauthorizedPrev.negotiation.provider_id ≠ (5 : NodeId) ∧
    (counter_proposal unauthorizedStore 7 ⟨0, .provider⟩ unauthorizedNew 5
      .provider).1 = .ok (fromClient unauthorizedPrev unauthorizedNew, true) ∧
    fromClient unauthorizedPrev unauthorizedNew ∈
      ((counter_proposal unauthorizedStore 7 ⟨0, .provider⟩ unauthorizedNew 5
        .provider).2).proposals := by
  decide

/-- C5. If no proposal with the given id exists in `st1`, while `st2` holds
one whose subscription differs from the supplied one, `get_proposal` returns
the very same `NotFound` error in both stores: existence under another
subscription is indistinguishable from nonexistence. -/
theorem get_proposal_hides_wrong_subscription (st1 st2 : Store)
    (sub : SubscriptionId) (pid : ProposalId) (p : Proposal)
    (h1 : proposalDaoGet st1 pid = none)
    (h2 : proposalDaoGet st2 pid = some p)
    (hne : p.negotiation.subscription_id ≠ sub) :
    get_proposal st2 (some sub) pid =
      .error (.notFound pid (some sub)) ∧
    get_proposal st2 (some sub) pid = get_proposal st1 (some sub) pid := by
  constructor
  · simp [get_proposal, h2, Option.filter, hne]
  · simp [get_proposal, h1, h2, Option.filter, hne]

/-- A store pair witnessing C5: `hiddenStoreA` is empty, `hiddenStoreB`
holds the proposal under subscription 9 while the caller asks under 7. -/
def hiddenStoreA : Store :=
  { proposals := [], offers := [], demands := [], agreements := [] }

/-- The store that hides proposal ⟨0, provider⟩ under subscription 9. -/
def hiddenStoreB : Store :=
  { proposals := [{ body := { id := ⟨0, .provider⟩
                              properties := []
                              constraints := .empty
                              issuer := .them
                              prev_proposal_id := none
                              state := .draft }
                    negotiation := { subscription_id := 9, offer_id := 1,
                                     demand_id := 2, provider_id := 1,
                                     requestor_id := 2 } }],
    offers := [], demands := [], agreements := [] }

/-- Witness for C5 at subscription 7 against `hiddenStoreA`/`hiddenStoreB`. -/
theorem get_proposal_hides_wrong_subscription_witness :
    get_proposal hiddenStoreB (some 7) ⟨0, .provider⟩ =
      .error (.notFound ⟨0, .provider⟩ (some 7)) ∧
    get_proposal hiddenStoreB (some 7) ⟨0, .provider⟩ =
      get_proposal hiddenStoreA (some 7) ⟨0, .provider⟩ :=
  get_proposal_hides_wrong_subscription hiddenStoreA hiddenStoreB 7
    ⟨0, .provider⟩ (hiddenStoreB.proposals.get ⟨0, by decide⟩)
    (by decide) (by decide) (by decide)

/-- C2. A proposal whose issuer tag is `Us` and whose id-owner equals the
caller's role is rejected with `OwnProposal` by both `counter_proposal` and
`reject_proposal`, and the store is unchanged: the self-reaction guard
(common.rs:600-605) raises its error. -/
theorem own_proposal_must_reject (st : Store) (sub : SubscriptionId)
    (pid : ProposalId) (np : NewProposal) (caller : NodeId) (role : Owner)
    (p : Proposal)
    (hfind : proposalDaoGet st pid = some p)
    (hsub : p.negotiation.subscription_id = sub)
    (hiss : p.body.issuer = .us)
    (hown : p.body.id.owner = role) :
    counter_proposal st sub pid np caller role =
      (.error (.validation (.ownProposal p.body.id)), st) ∧
    reject_proposal st (some sub) pid caller role =
      (.error (.validation (.ownProposal p.body.id)), st) := by
  have hget : get_proposal st (some sub) pid = .ok p := by
    simp [get_proposal, hfind, Option.filter, hsub]
  have hval : validate_proposal st p caller role =
      .error (.ownProposal p.body.id) := by
    unfold validate_proposal
    rw [if_pos ⟨hiss, hown⟩]
  constructor
  · simp [counter_proposal, hget, hval]
  · simp [reject_proposal, hget, hval]

/-- A proposal this side just issued (`Issuer::Us`, id owned by Provider). -/
def ownPrev : Proposal :=
  { body := { id := ⟨0, .provider⟩
              properties := [("d1", "v1")]
              constraints := .empty
              issuer := .us
              prev_proposal_id := none
              state := .draft }
    negotiation := { subscription_id := 7, offer_id := 1, demand_id := 2,
                     provider_id := 1, requestor_id := 2 } }

/-- A store holding `ownPrev` with its offer and demand live. -/
def ownStore : Store :=
  { proposals := [ownPrev], offers := [1], demands := [2], agreements := [] }

/-- Witness for C2: the provider (node 1) reacting to its own proposal. -/
theorem own_proposal_must_reject_witness :
    counter_proposal ownStore 7 ⟨0, .provider⟩ unauthorizedNew 1 .provider =
      (.error (.validation (.ownProposal ⟨0, .provider⟩)), ownStore) ∧
    reject_proposal ownStore (some 7) ⟨0, .provider⟩ 1 .provider =
      (.error (.validation (.ownProposal ⟨0, .provider⟩)), ownStore) :=
  own_proposal_must_reject ownStore 7 ⟨0, .provider⟩ unauthorizedNew 1
    .provider ownPrev (by decide) (by decide) (by decide) (by decide)

/-- C3. Rejecting a proposal already in a terminal state (`Rejected`,
`Accepted` or `Expired`) fails with the `InvalidTransition` error of the
state-transition function, and the store is unchanged — the call never
silently succeeds. -/
theorem reject_terminal_invalid_transition (st : Store)
    (subs_id : Option SubscriptionId) (pid : ProposalId) (caller : NodeId)
    (role : Owner) (p : Proposal)
    (hfind : proposalDaoGet st pid = some p)
    (hsub : subs_id = none ∨ subs_id = some p.negotiation.subscription_id)
    (hval : validate_proposal st p caller role = .ok ())
    (hterm : p.body.state.isTerminal = true) :
    reject_proposal st subs_id pid caller role =
      (.error (.invalidTransition pid p.body.state), st) := by
  have hget : get_proposal st subs_id pid = .ok p := by
    rcases hsub with h | h <;> subst h <;>
      simp [get_proposal, hfind, Option.filter]
  have hchange : change_proposal_state st pid ProposalState.rejected =
      .error (pid, p.body.state) := by
    simp [change_proposal_state, hfind, hterm]
  simp [reject_proposal, hget, hval, hchange]

/-- A proposal already rejected, with its offer and demand live. -/
def terminalPrev : Proposal :=
  { body := { id := ⟨0, .provider⟩
              properties := [("d1", "v1")]
              constraints := .empty
              issuer := .them
              prev_proposal_id := none
              state := .rejected }
    negotiation := { subscription_id := 7, offer_id := 1, demand_id := 2,
                     provider_id := 1, requestor_id := 2 } }

/-- A store holding `terminalPrev`. -/
def terminalStore : Store :=
  { proposals := [terminalPrev], offers := [1], demands := [2],
    agreements := [] }

/-- Witness for C3: rejecting the already-rejected proposal fails with
`InvalidTransition` and leaves the store alone. -/
theorem reject_terminal_invalid_transition_witness :
    reject_proposal terminalStore (some 7) ⟨0, .provider⟩ 1 .provider =
      (.error (.invalidTransition ⟨0, .provider⟩ ProposalState.rejected),
        terminalStore) :=
  reject_terminal_invalid_transition terminalStore (some 7) ⟨0, .provider⟩ 1
    .provider terminalPrev (by decide) (Or.inr (by decide)) (by decide)
    (by decide)

/-- An agreement already terminated, between provider node 1 and requestor
node 2. -/
def terminatedAgreement : Agreement :=
  { id := ⟨3, .provider⟩
    provider_id := 1
    requestor_id := 2
    state := .terminated
    session_id := none
    terminated_reason := none }

/-- A store holding `terminatedAgreement`. -/
def terminatedStore : Store :=
  { proposals := [], offers := [], demands := [],
    agreements := [terminatedAgreement] }

/-- Counterexample to C4 as stated: terminating the already-terminated
agreement through the remote entry point fails with the generic
`InternalError` remote variant, not with an `InvalidTransition` error — the
unconditional `map_err` at common.rs:420-429 folds the DAO transition
failure into `RemoteAgreementError::InternalError`, and the remote error
type has no transition variant at all. -/
theorem remote_terminate_terminated_internal_error :
    terminatedAgreement.state = AgreementState.terminated ∧
    on_agreement_terminated_inner terminatedStore ⟨3, .provider⟩ none 1
      .provider =
      (.error (.internalError ⟨3, .provider⟩), terminatedStore) := by
  decide

/-- C4 (amended). Terminating an already-`Terminated` agreement fails on
both entry points and leaves the agreement state unchanged; the local entry
point fails with the `InvalidTransition` error, while the remote entry point
surfaces the transition failure as the generic `InternalError` remote
variant. -/
theorem terminated_agreement_is_absorbing (st : Store)
    (identity caller : NodeId) (aid : AgreementId) (reason : Option String)
    (role : Owner) (a : Agreement)
    (hsel : select_by_node st aid identity = some a)
    (hsel2 : agreementSelect st aid = some a)
    (hauth : (match role with
      | Owner.provider => a.provider_id
      | Owner.requestor => a.requestor_id) = caller)
    (hstate : a.state = .terminated) :
    terminate_agreement st identity aid reason =
      (.error (.updateState a.id
        (.invalidTransition .terminated .terminated)), st) ∧
    on_agreement_terminated_inner st aid reason caller role =
      (.error (.internalError aid), st) := by
  constructor
  · simp [terminate_agreement, hsel, validate_transition, check_transition,
      hstate]
  · cases role <;>
      simp_all [on_agreement_terminated_inner, hsel2, agreementDaoTerminate,
        check_transition, hstate]

/-- Witness for C4 (amended): both entry points fail on
`terminatedAgreement` and the store is handed back unchanged. -/
theorem terminated_agreement_is_absorbing_witness :
    terminate_agreement terminatedStore 1 ⟨3, .provider⟩ none =
      (.error (.updateState ⟨3, .provider⟩
        (.invalidTransition .terminated .terminated)), terminatedStore) ∧
    on_agreement_terminated_inner terminatedStore ⟨3, .provider⟩ none 2
      .requestor =
      (.error (.internalError ⟨3, .provider⟩), terminatedStore) :=
  terminated_agreement_is_absorbing terminatedStore 1 2 ⟨3, .provider⟩ none
    .requestor terminatedAgreement (by decide) (by decide) (by decide)
    (by decide)

/-- C8. `Equals(ref, val)` evaluated against a property set in which the
reference does not resolve yields `Undefined` carrying the unresolved
reference and the offending sub-expression — never `False`; and a match
whose demand constraint is such an `Equals` yields an `Undefined` match
result whatever the offer-side constraint evaluates to. -/
theorem equals_absent_is_undefined (r : PropertyRef) (v : String)
    (offerProps demandProps : PropertySet) (offerCons : Expression)
    (habs : resolveRef offerProps r = none) :
    evaluate (.equals r v) offerProps = .undef [r] (.equals r v) ∧
    match_weak demandProps (.equals r v) offerProps offerCons =
      .undefined ([r], .equals r v)
        (undefPair (evaluate offerCons demandProps)) := by
  have heval : evaluate (.equals r v) offerProps = .undef [r] (.equals r v) := by
    simp [evaluate, habs]
  refine ⟨heval, ?_⟩
  cases h : evaluate offerCons demandProps <;>
    simp [match_weak, heval, h, undefPair]

/-- Witness for C8, mirroring `match_weak_simple_undefined` in
`src/tests/matching.rs`: the demand constraint `(o3=v2)` against an offer
publishing only `o1` is `Undefined`, and the whole match is `Undefined`
with the offer side contributing the empty `([], Empty)` pair. -/
theorem equals_absent_is_undefined_witness :
    resolveRef [("o1", "v2")] (.value "o3" .any) = none ∧
    match_weak [("d1", "v1")] (.equals (.value "o3" .any) "v2")
      [("o1", "v2")] (.equals (.value "d1" .any) "v3") =
      .undefined ([.value "o3" .any], .equals (.value "o3" .any) "v2")
        ([], .empty) := by
  have h := equals_absent_is_undefined (.value "o3" .any) "v2"
    [("o1", "v2")] [("d1", "v1")] (.equals (.value "d1" .any) "v3")
    (by decide)
  exact ⟨by decide, by rw [h.2]; decide⟩

/-- The long-poll schedule stays quiet up to the deadline: every drain is
empty, every wait is a wake that finds nothing again, and the run ends with
the deadline passing (either observed by the guard or as a wait timeout). -/
def quietUntilDeadline (stop_time : Int) : List Round → Bool
  | [] => false
  | r :: rest =>
    (r.take = Except.ok ([] : List MEvent)) &&
    (if stop_time < r.now then true
     else if r.wait = WaitResult.timeout then true
     else (r.wait = WaitResult.woken) && quietUntilDeadline stop_time rest)

/-- The long-poll schedule drains nothing and, before the deadline passes,
ends with an `Unsubscribed` wake for the given subscription. -/
def reachesUnsubscribed (stop_time : Int) (id : SubscriptionId) :
    List Round → Bool
  | [] => false
  | r :: rest =>
    (r.take = Except.ok ([] : List MEvent)) &&
    (if stop_time < r.now then false
     else if r.wait = WaitResult.unsubscribed id then true
     else (r.wait = WaitResult.woken) && reachesUnsubscribed stop_time id rest)

theorem queryEventsLoop_quiet (stop : Int) :
    ∀ rounds, quietUntilDeadline stop rounds = true →
      (queryEventsLoop stop rounds).1 = QOutcome.ok [] := by
  intro rounds
  induction rounds with
  | nil => intro h; simp [quietUntilDeadline] at h
  | cons r rest ih =>
    intro h
    simp only [quietUntilDeadline, Bool.and_eq_true, decide_eq_true_eq] at h
    obtain ⟨htake, hrest⟩ := h
    by_cases hnow : stop < r.now
    · simp [queryEventsLoop, htake, hnow]
    · rw [if_neg hnow] at hrest
      by_cases hw : r.wait = WaitResult.timeout
      · simp [queryEventsLoop, htake, hnow, instantSub, hw]
      · rw [if_neg hw] at hrest
        simp only [Bool.and_eq_true, decide_eq_true_eq] at hrest
        obtain ⟨hwoken, hq⟩ := hrest
        simp [queryEventsLoop, htake, hnow, instantSub, hwoken, ih hq]

theorem queryEventsLoop_unsubscribed (stop : Int) (id : SubscriptionId) :
    ∀ rounds, reachesUnsubscribed stop id rounds = true →
      (queryEventsLoop stop rounds).1 =
        QOutcome.err (.takeError (.notFound id)) := by
  intro rounds
  induction rounds with
  | nil => intro h; simp [reachesUnsubscribed] at h
  | cons r rest ih =>
    intro h
    simp only [reachesUnsubscribed, Bool.and_eq_true, decide_eq_true_eq] at h
    obtain ⟨htake, hrest⟩ := h
    by_cases hnow : stop < r.now
    · rw [if_pos hnow] at hrest; exact absurd hrest (by simp)
    · rw [if_neg hnow] at hrest
      by_cases hw : r.wait = WaitResult.unsubscribed id
      · simp [queryEventsLoop, htake, hnow, instantSub, hw]
      · rw [if_neg hw] at hrest
        simp only [Bool.and_eq_true, decide_eq_true_eq] at hrest
        obtain ⟨hwoken, hq⟩ := hrest
        simp [queryEventsLoop, htake, hnow, instantSub, hwoken, ih hq]

theorem query_events_unfold (config : EventsConfig) (timeout : Int)
    (max_events : Option Int) (now0 : Int) (rounds : List Round)
    (h : ¬(max_events.getD config.max_events_default ≤ 0 ∨
      max_events.getD config.max_events_default > config.max_events_max)) :
    query_events config timeout max_events now0 rounds =
      ((queryEventsLoop (now0 + max timeout 0) rounds).1,
        .listen :: (queryEventsLoop (now0 + max timeout 0) rounds).2) := by
  have hmax : ¬ (max timeout 0 < 0) := not_lt.mpr (le_max_right _ _)
  simp [query_events, durationFromSecs, hmax, h]

theorem query_agreement_events_unfold (config : EventsConfig) (timeout : Int)
    (max_events : Option Int) (now0 : Int) (rounds : List Round)
    (h : ¬(max_events.getD config.max_events_default ≤ 0 ∨
      max_events.getD config.max_events_default > config.max_events_max)) :
    query_agreement_events config timeout max_events now0 rounds =
      ((queryAgreementEventsLoop (now0 + max timeout 0) rounds).1,
        .listen :: (queryAgreementEventsLoop (now0 + max timeout 0) rounds).2)
    := by
  have hmax : ¬ (max timeout 0 < 0) := not_lt.mpr (le_max_right _ _)
  simp [query_agreement_events, durationFromSecs, hmax, h]

/-- C6. On a long-poll whose schedule stays quiet until the deadline
(empty drains, deadline passing or a wait timeout), `query_events` returns a
successful empty list; whereas a schedule that is woken with the
`Unsubscribed` signal makes it return the not-found error instead of an
empty success. -/
theorem query_events_timeout_ok_unsubscribed_err (config : EventsConfig)
    (timeout : Int) (max_events : Option Int) (now0 : Int)
    (roundsA roundsB : List Round) (id : SubscriptionId)
    (hvalid : ¬(max_events.getD config.max_events_default ≤ 0 ∨
      max_events.getD config.max_events_default > config.max_events_max)) :
    (quietUntilDeadline (now0 + max timeout 0) roundsA = true →
      (query_events config timeout max_events now0 roundsA).1 =
        QOutcome.ok []) ∧
    (reachesUnsubscribed (now0 + max timeout 0) id roundsB = true →
      (query_events config timeout max_events now0 roundsB).1 =
        QOutcome.err (.takeError (.notFound id))) := by
  constructor <;> intro h
  · rw [query_events_unfold config timeout max_events now0 roundsA hvalid]
    exact queryEventsLoop_quiet _ _ h
  · rw [query_events_unfold config timeout max_events now0 roundsB hvalid]
    exact queryEventsLoop_unsubscribed _ _ _ h

/-- Witness for C6: deadline 5, one empty drain then a wait timeout gives an
empty success; the same schedule ending in an `Unsubscribed` wake gives the
not-found error. -/
theorem query_events_timeout_ok_unsubscribed_err_witness :
    (query_events ⟨10, 100⟩ 5 (some 10) 0 [⟨2, .ok [], .timeout⟩]).1 =
      QOutcome.ok [] ∧
    (query_events ⟨10, 100⟩ 5 (some 10) 0 [⟨2, .ok [], .unsubscribed 7⟩]).1 =
      QOutcome.err (.takeError (.notFound 7)) :=
  ⟨(query_events_timeout_ok_unsubscribed_err ⟨10, 100⟩ 5 (some 10) 0
      [⟨2, .ok [], .timeout⟩] [⟨2, .ok [], .unsubscribed 7⟩] 7
      (by decide)).1 (by decide),
   (query_events_timeout_ok_unsubscribed_err ⟨10, 100⟩ 5 (some 10) 0
      [⟨2, .ok [], .timeout⟩] [⟨2, .ok [], .unsubscribed 7⟩] 7
      (by decide)).2 (by decide)⟩

/-- C7. When the effective `max_events` (the supplied value or the
configured default) is non-positive or above the configured ceiling, both
`query_events` and `query_agreement_events` return the `InvalidMaxEvents`
error with an empty effect trace: no listener is registered and the store
is never read. -/
theorem query_events_invalid_max_events_immediate (config : EventsConfig)
    (timeout : Int) (max_events : Option Int) (now0 : Int)
    (rounds : List Round)
    (h : max_events.getD config.max_events_default ≤ 0 ∨
      max_events.getD config.max_events_default > config.max_events_max) :
    query_events config timeout max_events now0 rounds =
      (QOutcome.err (.invalidMaxEvents
        (max_events.getD config.max_events_default) config.max_events_max),
        ([] : List Effect)) ∧
    query_agreement_events config timeout max_events now0 rounds =
      (QOutcome.err (.invalidMaxEvents
        (max_events.getD config.max_events_default) config.max_events_max),
        ([] : List Effect)) := by
  have hmax : ¬ (max timeout 0 < 0) := not_lt.mpr (le_max_right _ _)
  constructor <;>
    simp [query_events, query_agreement_events, durationFromSecs, hmax, h]

/-- Witness for C7: ceiling 100, requested 200. -/
theorem query_events_invalid_max_events_immediate_witness :
    query_events ⟨10, 100⟩ 5 (some 200) 0 [] =
      (QOutcome.err (.invalidMaxEvents 200 100), ([] : List Effect)) ∧
    query_agreement_events ⟨10, 100⟩ 5 (some 200) 0 [] =
      (QOutcome.err (.invalidMaxEvents 200 100), ([] : List Effect)) :=
  query_events_invalid_max_events_immediate ⟨10, 100⟩ 5 (some 200) 0 []
    (by decide)

theorem queryEventsLoop_no_panic (stop : Int) :
    ∀ rounds, (queryEventsLoop stop rounds).1 ≠ QOutcome.panicked := by
  intro rounds
  induction rounds with
  | nil => simp [queryEventsLoop]
  | cons r rest ih =>
    cases htake : r.take with
    | error e => simp [queryEventsLoop, htake]
    | ok evs =>
      by_cases hlen : evs.length > 0
      · simp [queryEventsLoop, htake, hlen]
      · by_cases hnow : stop < r.now
        · simp [queryEventsLoop, htake, hlen, hnow]
        · cases hw : r.wait <;>
            simp [queryEventsLoop, htake, hlen, hnow, instantSub, hw, ih]

theorem queryAgreementEventsLoop_no_panic (stop : Int) :
    ∀ rounds, (queryAgreementEventsLoop stop rounds).1 ≠ QOutcome.panicked
    := by
  intro rounds
  induction rounds with
  | nil => simp [queryAgreementEventsLoop]
  | cons r rest ih =>
    cases htake : r.take with
    | error e => simp [queryAgreementEventsLoop, htake]
    | ok evs =>
      by_cases hlen : evs.length > 0
      · simp [queryAgreementEventsLoop, htake, hlen]
      · by_cases hnow : stop < r.now
        · simp [queryAgreementEventsLoop, htake, hlen, hnow]
        · cases hw : r.wait <;>
            simp [queryAgreementEventsLoop, htake, hlen, hnow, instantSub,
              hw, ih]

theorem queryEventsLoop_drains (stop : Int) (r : Round) (rest : List Round) :
    Effect.takeEvents ∈ (queryEventsLoop stop (r :: rest)).2 := by
  cases htake : r.take with
  | error e => simp [queryEventsLoop, htake]
  | ok evs =>
    by_cases hlen : evs.length > 0
    · simp [queryEventsLoop, htake, hlen]
    · by_cases hnow : stop < r.now
      · simp [queryEventsLoop, htake, hlen, hnow]
      · cases hw : r.wait <;>
          simp [queryEventsLoop, htake, hlen, hnow, instantSub, hw]

theorem queryAgreementEventsLoop_drains (stop : Int) (r : Round)
    (rest : List Round) :
    Effect.takeEvents ∈ (queryAgreementEventsLoop stop (r :: rest)).2 := by
  cases htake : r.take with
  | error e => simp [queryAgreementEventsLoop, htake]
  | ok evs =>
    by_cases hlen : evs.length > 0
    · simp [queryAgreementEventsLoop, htake, hlen]
    · by_cases hnow : stop < r.now
      · simp [queryAgreementEventsLoop, htake, hlen, hnow]
      · cases hw : r.wait <;>
          simp [queryAgreementEventsLoop, htake, hlen, hnow, instantSub, hw]

/-- C10. For every timeout value, negative and zero included, neither
`query_events` nor `query_agreement_events` reaches a panic: the timeout is
clamped to at least zero before `Duration` conversion and the deadline is
compared against the current instant before the instant subtraction.
With a valid `max_events` the loop body runs at least one store drain
(whenever at least one iteration is scheduled), and a first iteration whose
drain is empty and whose deadline has already passed returns an empty
success after exactly that one store check. -/
theorem query_events_negative_timeout_safe (config : EventsConfig)
    (timeout : Int) (max_events : Option Int) (now0 : Int)
    (rounds : List Round) :
    (query_events config timeout max_events now0 rounds).1 ≠
      QOutcome.panicked ∧
    (query_agreement_events config timeout max_events now0 rounds).1 ≠
      QOutcome.panicked ∧
    (¬(max_events.getD config.max_events_default ≤ 0 ∨
        max_events.getD config.max_events_default >
          config.max_events_max) →
      ∀ r rest, rounds = r :: rest →
        Effect.takeEvents ∈
          (query_events config timeout max_events now0 rounds).2 ∧
        Effect.takeEvents ∈
          (query_agreement_events config timeout max_events now0 rounds).2 ∧
        (r.take = Except.ok ([] : List MEvent) →
          now0 + max timeout 0 < r.now →
          query_events config timeout max_events now0 rounds =
            (QOutcome.ok [], [Effect.listen, Effect.takeEvents]))) := by
  have hclamp : ¬ (max timeout 0 < 0) := not_lt.mpr (le_max_right _ _)
  refine ⟨?_, ?_, ?_⟩
  · by_cases h : max_events.getD config.max_events_default ≤ 0 ∨
        max_events.getD config.max_events_default > config.max_events_max
    · simp [query_events, durationFromSecs, hclamp, h]
    · rw [query_events_unfold config timeout max_events now0 rounds h]
      exact queryEventsLoop_no_panic _ _
  · by_cases h : max_events.getD config.max_events_default ≤ 0 ∨
        max_events.getD config.max_events_default > config.max_events_max
    · simp [query_agreement_events, durationFromSecs, hclamp, h]
    · rw [query_agreement_events_unfold config timeout max_events now0
        rounds h]
      exact queryAgreementEventsLoop_no_panic _ _
  · intro h r rest hr
    subst hr
    refine ⟨?_, ?_, ?_⟩
    · rw [query_events_unfold config timeout max_events now0 _ h]
      exact List.mem_cons_of_mem _ (queryEventsLoop_drains _ _ _)
    · rw [query_agreement_events_unfold config timeout max_events now0 _ h]
      exact List.mem_cons_of_mem _ (queryAgreementEventsLoop_drains _ _ _)
    · intro htake hnow
      rw [query_events_unfold config timeout max_events now0 _ h]
      simp [queryEventsLoop, htake, hnow]

/-- Witness for C10 at the negative timeout -3: the clamped deadline has
already passed at the first re-check, so the call drains once and returns an
empty success, with no panic on either query function. -/
theorem query_events_negative_timeout_safe_witness :
    (query_events ⟨10, 100⟩ (-3) (some 10) 0 [⟨2, .ok [], .timeout⟩]).1 ≠
      QOutcome.panicked ∧
    query_events ⟨10, 100⟩ (-3) (some 10) 0 [⟨2, .ok [], .timeout⟩] =
      (QOutcome.ok [], [Effect.listen, Effect.takeEvents]) :=
  ⟨(query_events_negative_timeout_safe ⟨10, 100⟩ (-3) (some 10) 0
      [⟨2, .ok [], .timeout⟩]).1,
   ((query_events_negative_timeout_safe ⟨10, 100⟩ (-3) (some 10) 0
      [⟨2, .ok [], .timeout⟩]).2.2 (by decide) ⟨2, .ok [], .timeout⟩ []
      rfl).2.2 (by decide) (by decide)⟩

theorem sortedByTs_cons_of (x : MEvent) (l : List MEvent)
    (hhead : ∀ z, l.head? = some z → x.timestamp ≤ z.timestamp)
    (hl : sortedByTs l = true) : sortedByTs (x :: l) = true := by
  cases l with
  | nil => simp [sortedByTs]
  | cons z zs =>
    simp only [sortedByTs, Bool.and_eq_true, decide_eq_true_eq]
    exact ⟨hhead z rfl, hl⟩

theorem sortedByTs_tail (x : MEvent) (l : List MEvent)
    (h : sortedByTs (x :: l) = true) : sortedByTs l = true := by
  cases l with
  | nil => simp [sortedByTs]
  | cons y ys =>
    simp only [sortedByTs, Bool.and_eq_true, decide_eq_true_eq] at h
    exact h.2

theorem sortedByTs_head_le (x : MEvent) (l : List MEvent)
    (h : sortedByTs (x :: l) = true) :
    ∀ z, l.head? = some z → x.timestamp ≤ z.timestamp := by
  cases l with
  | nil => intro z hz; simp at hz
  | cons y ys =>
    intro z hz
    simp only [List.head?_cons, Option.some.injEq] at hz
    subst hz
    simp only [sortedByTs, Bool.and_eq_true, decide_eq_true_eq] at h
    exact h.1

theorem insertByTs_head (e : MEvent) (l : List MEvent) :
    ∀ z, (insertByTs e l).head? = some z → z = e ∨ l.head? = some z := by
  cases l with
  | nil => intro z hz; simp [insertByTs] at hz; exact Or.inl hz.symm
  | cons x xs =>
    intro z hz
    by_cases hex : e.timestamp ≤ x.timestamp
    · simp [insertByTs, hex] at hz; exact Or.inl hz.symm
    · simp [insertByTs, hex] at hz; exact Or.inr (by simp [hz])

theorem sortedByTs_insertByTs (e : MEvent) :
    ∀ l, sortedByTs l = true → sortedByTs (insertByTs e l) = true := by
  intro l
  induction l with
  | nil => intro _; simp [insertByTs, sortedByTs]
  | cons x xs ih =>
    intro h
    by_cases hex : e.timestamp ≤ x.timestamp
    · rw [insertByTs, if_pos hex]
      refine sortedByTs_cons_of e (x :: xs) ?_ h
      intro z hz
      simp only [List.head?_cons, Option.some.injEq] at hz
      subst hz
      exact hex
    · rw [insertByTs, if_neg hex]
      refine sortedByTs_cons_of x (insertByTs e xs) ?_
        (ih (sortedByTs_tail x xs h))
      intro z hz
      rcases insertByTs_head e xs z hz with hze | hzs
      · subst hze; omega
      · exact sortedByTs_head_le x xs h z hzs

theorem sortedByTs_sortByTs : ∀ l, sortedByTs (sortByTs l) = true := by
  intro l
  induction l with
  | nil => simp [sortByTs, sortedByTs]
  | cons x xs ih => exact sortedByTs_insertByTs x (sortByTs xs) ih

theorem insertByTs_perm (e : MEvent) :
    ∀ l, (insertByTs e l).Perm (e :: l) := by
  intro l
  induction l with
  | nil => simp [insertByTs]
  | cons x xs ih =>
    by_cases hex : e.timestamp ≤ x.timestamp
    · rw [insertByTs, if_pos hex]
    · rw [insertByTs, if_neg hex]
      exact (ih.cons x).trans (List.Perm.swap e x xs)

theorem sortByTs_perm : ∀ l, (sortByTs l).Perm l := by
  intro l
  induction l with
  | nil => simp [sortByTs]
  | cons x xs ih => exact (insertByTs_perm x (sortByTs xs)).trans (ih.cons x)

theorem takeHead (n : Nat) (l : List MEvent) (z : MEvent)
    (h : (List.take n l).head? = some z) : l.head? = some z := by
  cases n with
  | zero => simp at h
  | succ m => cases l with
    | nil => simp at h
    | cons x xs => simpa using h

theorem sortedByTs_take :
    ∀ (l : List MEvent) (n : Nat), sortedByTs l = true →
      sortedByTs (List.take n l) = true := by
  intro l
  induction l with
  | nil => intro n _; simp [sortedByTs]
  | cons x xs ih =>
    intro n h
    cases n with
    | zero => simp [sortedByTs]
    | succ m =>
      rw [List.take_succ_cons]
      exact sortedByTs_cons_of x (List.take m xs)
        (fun z hz => sortedByTs_head_le x xs h z (takeHead m xs z hz))
        (ih m (sortedByTs_tail x xs h))

theorem limitRows_length (n : Int) (l : List MEvent) (hn : 0 ≤ n) :
    (limitRows n l).length ≤ n.toNat := by
  rw [limitRows, if_neg (by omega)]
  exact List.length_take_le _ _

theorem limitRows_subset (n : Int) (l : List MEvent) :
    ∀ a, a ∈ limitRows n l → a ∈ l := by
  intro a h
  rw [limitRows] at h
  split at h
  · exact h
  · exact List.mem_of_mem_take h

theorem limitRows_sorted (n : Int) (l : List MEvent)
    (h : sortedByTs l = true) : sortedByTs (limitRows n l) = true := by
  rw [limitRows]
  split
  · exact h
  · exact sortedByTs_take l _ h

theorem limitRows_all (n : Int) (l : List MEvent)
    (h : l.length ≤ n.toNat) : limitRows n l = l := by
  rw [limitRows]
  split
  · rfl
  · exact List.take_of_length_le h

theorem take_events_ok (st : EventsStore) (sub : SubscriptionId)
    (max_events : Int) (owner : Owner) (evs : List MEvent)
    (st' : EventsStore)
    (hres : take_events st sub max_events owner = (.ok evs, st')) :
    evs = limitRows max_events (sortByTs (st.rows.filter
      (fun r => r.subscription_id = sub))) ∧
    st'.rows = (if evs.isEmpty then st.rows
      else st.rows.filter (fun r => r.id ∉ evs.map (fun e => e.id))) := by
  cases hv : validate_subscription st sub owner with
  | error e => simp only [take_events, hv] at hres; simp at hres
  | ok u =>
    simp only [take_events, hv] at hres
    split at hres
    case isTrue hemp =>
      simp only [Prod.mk.injEq, Except.ok.injEq] at hres
      obtain ⟨h1, h2⟩ := hres
      subst h1
      refine ⟨rfl, ?_⟩
      rw [if_pos hemp, ← h2]
    case isFalse hemp =>
      simp only [Prod.mk.injEq, Except.ok.injEq] at hres
      obtain ⟨h1, h2⟩ := hres
      subst h1
      refine ⟨rfl, ?_⟩
      rw [if_neg hemp, ← h2]

theorem takenOf_mem_rows (st2 : EventsStore) (sub2 : SubscriptionId)
    (max2 : Int) (owner2 : Owner) :
    ∀ e2, e2 ∈ takenOf (take_events st2 sub2 max2 owner2) →
      e2 ∈ st2.rows := by
  intro e2 he
  rcases hres : take_events st2 sub2 max2 owner2 with ⟨r1, r2⟩
  cases r1 with
  | error err => rw [hres] at he; simp [takenOf] at he
  | ok evs =>
    rw [hres] at he
    simp only [takenOf] at he
    have h := (take_events_ok st2 sub2 max2 owner2 evs r2 hres).1
    subst h
    exact (List.mem_filter.mp ((sortByTs_perm _).mem_iff.mp
      (limitRows_subset _ _ e2 he))).1

/-- C9. A successful `take_events` call returns the events stored for the
subscription in ascending timestamp order, at most `max_events` of them —
and exactly the stored ones, up to order, whenever the queue holds no more
than `max_events`; each returned event is deleted from the resulting store,
so no later `take_events` call, on any subscription, can return an event
with the id of one already taken. -/
theorem take_events_fifo_exactly_once (st : EventsStore)
    (sub : SubscriptionId) (max_events : Int) (owner : Owner)
    (evs : List MEvent) (st' : EventsStore)
    (hres : take_events st sub max_events owner = (.ok evs, st'))
    (hmax : 0 ≤ max_events) :
    sortedByTs evs = true ∧
    evs.length ≤ max_events.toNat ∧
    (∀ e ∈ evs, e ∈ st.rows ∧ e.subscription_id = sub) ∧
    ((st.rows.filter (fun r => r.subscription_id = sub)).length ≤
        max_events.toNat →
      evs.Perm (st.rows.filter (fun r => r.subscription_id = sub))) ∧
    (∀ e ∈ evs, e ∉ st'.rows) ∧
    (∀ sub2 max2 owner2 e, e ∈ evs →
      ∀ e2, e2 ∈ takenOf (take_events st' sub2 max2 owner2) →
        e2.id ≠ e.id) := by
  obtain ⟨hevs, hrows⟩ := take_events_ok st sub max_events owner evs st' hres
  subst hevs
  refine ⟨limitRows_sorted _ _ (sortedByTs_sortByTs _),
    limitRows_length _ _ hmax, ?_, ?_, ?_, ?_⟩
  · intro e he
    have hmem := (sortByTs_perm _).mem_iff.mp (limitRows_subset _ _ e he)
    have := List.mem_filter.mp hmem
    exact ⟨this.1, by simpa using this.2⟩
  · intro hlen
    have hlen2 : (sortByTs (st.rows.filter
        (fun r => r.subscription_id = sub))).length ≤ max_events.toNat := by
      rw [(sortByTs_perm _).length_eq]
      exact hlen
    rw [limitRows_all _ _ hlen2]
    exact sortByTs_perm _
  · intro e he hmem
    rw [hrows] at hmem
    rcases hemp : (limitRows max_events (sortByTs (st.rows.filter
        (fun r => r.subscription_id = sub)))).isEmpty with _ | _
    · rw [if_neg (by simp [hemp])] at hmem
      have h2 := (List.mem_filter.mp hmem).2
      simp only [decide_eq_true_eq] at h2
      exact h2 (List.mem_map_of_mem (fun x => x.id) he)
    · rw [List.isEmpty_iff] at hemp
      rw [hemp] at he
      simp at he
  · intro sub2 max2 owner2 e he e2 he2
    have hrows2 := takenOf_mem_rows st' sub2 max2 owner2 e2 he2
    rw [hrows] at hrows2
    rcases hemp : (limitRows max_events (sortByTs (st.rows.filter
        (fun r => r.subscription_id = sub)))).isEmpty with _ | _
    · rw [if_neg (by simp [hemp])] at hrows2
      have h2 := (List.mem_filter.mp hrows2).2
      simp only [decide_eq_true_eq] at h2
      intro heq
      exact h2 (heq ▸ List.mem_map_of_mem (fun x => x.id) he)
    · rw [List.isEmpty_iff] at hemp
      rw [hemp] at he
      simp at he

/-- An events store holding two events for subscription 7 (out of timestamp
order) and one for subscription 8, with demand subscription 7 live. -/
def fifoStore : EventsStore :=
  { rows := [⟨10, 7, 5⟩, ⟨11, 7, 3⟩, ⟨12, 8, 1⟩],
    demand_states := [(7, .active)], offer_states := [] }

/-- `fifoStore` after the subscription-7 events are taken. -/
def fifoStoreAfter : EventsStore :=
  { rows := [⟨12, 8, 1⟩],
    demand_states := [(7, .active)], offer_states := [] }

/-- Witness for C9: taking from subscription 7 returns its two events
oldest-first and deletes both from the store. -/
theorem take_events_fifo_exactly_once_witness :
    sortedByTs [⟨11, 7, 3⟩, ⟨10, 7, 5⟩] = true ∧
    (∀ e ∈ ([⟨11, 7, 3⟩, ⟨10, 7, 5⟩] : List MEvent),
      e ∈ fifoStore.rows ∧ e.subscription_id = 7) ∧
    (∀ e ∈ ([⟨11, 7, 3⟩, ⟨10, 7, 5⟩] : List MEvent),
      e ∉ fifoStoreAfter.rows) :=
  ⟨(take_events_fifo_exactly_once fifoStore 7 10 .requestor
      [⟨11, 7, 3⟩, ⟨10, 7, 5⟩] fifoStoreAfter (by decide) (by decide)).1,
   (take_events_fifo_exactly_once fifoStore 7 10 .requestor
      [⟨11, 7, 3⟩, ⟨10, 7, 5⟩] fifoStoreAfter (by decide)
      (by decide)).2.2.1,
   (take_events_fifo_exactly_once fifoStore 7 10 .requestor
      [⟨11, 7, 3⟩, ⟨10, 7, 5⟩] fifoStoreAfter (by decide)
      (by decide)).2.2.2.2.1⟩
